import Mathlib

/-
  Verification of the `oracle-script` price-feed relayer.

  The repository holds one workflow in three near-identical variants:
    * src/src/update-oracle.ts       (direct script; referred to as `src`)
    * src/unnamed/part_000           (compiled module; referred to as `p0`)
    * src/dist/update-oracle.js      (managed-function variant; referred to as `dist`)

  The embedding below models JavaScript strings as `List Char`, thrown
  JavaScript values as `ErrVal` (an `Error` object carrying a message, or any
  other value via its string representation), and each fallible external call
  (wallet construction, balance query, HTTP fetch, contract reads/writes) as
  an `Except ErrVal _` outcome recorded in an environment record.  A function
  body that can throw is an `Except` computation; the surrounding
  `try`/`catch` of the source is the `match` that turns it into a plain
  result object.  Result objects are records whose `Option` fields record
  which keys the returned JavaScript object actually carries.
-/

namespace OracleScript

/-- A JavaScript value that was thrown: either an `Error` object (whose
`message` field `formatError` extracts) or any other value, retained through
its string representation. -/
inductive ErrVal where
  | errObj (message : List Char)
  | nonErr (stringRep : List Char)
deriving DecidableEq, Repr

/-- `formatError` from all three variants: `error.message` for an `Error`
instance, `String(error)` otherwise. -/
def formatError : ErrVal → List Char
  | ErrVal.errObj msg => msg
  | ErrVal.nonErr s => s

/-- A JavaScript value stored in a result-object field: a string, a bigint,
or a raw error value. -/
inductive JsVal where
  | str (s : List Char)
  | big (n : Nat)
  | err (e : ErrVal)
deriving DecidableEq, Repr

/-- The result object returned by the public operations.  An `Option` field
is `none` exactly when the returned JavaScript object does not carry that
key.  No variant ever sets `blockNumber`; the field records that the
confirmation block number (available from the awaited receipt) is absent
from every returned object. -/
structure JsResult where
  success : Bool
  hash : Option (List Char) := none
  price : Option JsVal := none
  error : Option JsVal := none
  blockNumber : Option Nat := none
deriving DecidableEq, Repr

/-- `UPDATE_INTERVAL` from src/src/update-oracle.ts: 45 * 1000 ms. -/
def UPDATE_INTERVAL : Int := 45 * 1000

/-- Config-error message of the `src` variant. -/
def srcConfigErrorMsg : List Char :=
  "PRIVATE_KEY_TEST environment variable is not set. Please set it in .env file.".toList

/-- Config-error message of the `dist` variant. -/
def distConfigErrorMsg : List Char :=
  "PRIVATE_KEY_TEST environment variable is not set. Please set it in Lambda configuration.".toList

/-- Config-error message of the `p0` variant. -/
def p0ConfigErrorMsg : List Char :=
  "PRIVATE_KEY_TEST environment variable is not set. Please set it in your .env file.".toList

/-- JavaScript truthiness of `PRIVATE_KEY` (a `string | undefined`): falsy
exactly when it is `undefined` or the empty string. -/
def privateKeyFalsy : Option (List Char) → Bool
  | none => true
  | some s => s.isEmpty

/-- `hexString.startsWith ("0x")` on a JavaScript string. -/
def startsWith0x (s : List Char) : Bool :=
  List.isPrefixOf "0x".toList s

/-- The normalization applied to each element of the attestation service's
binary-data array: prepend `"0x"` when the element does not already start
with it, return it unchanged otherwise. -/
def normalizeBlob (s : List Char) : List Char :=
  if startsWith0x s then s else "0x".toList ++ s

/-- `rawData.map (...)`: the `priceUpdateData` array built from the
attestation response. -/
def priceUpdateData (rawData : List (List Char)) : List (List Char) :=
  rawData.map normalizeBlob

/-- One recorded trace of external responses for a submission cycle.  Each
field is the outcome the corresponding awaited external call would produce
in this cycle. -/
structure Env where
  privateKey : Option (List Char)
  walletInit : Except ErrVal (List Char)
  getBalance : Except ErrVal Nat
  hermes : Except ErrVal (List (List Char))
  pyth : Except ErrVal (List Char)
  getUpdateFee : Except ErrVal Nat
  sendTx : Except ErrVal (List Char)
  txWait : Except ErrVal Nat

/-- The `try`-block of `updateOraclePrices` in the `src` and `dist`
variants (they differ only in the configuration-error message `cfgMsg`):
check the private key, construct the wallet, query the balance, fetch the
attestation data, normalize it, resolve the verifier address, quote the fee,
send the transaction and await one confirmation; the resulting value is the
transaction hash. -/
def updateBody (cfgMsg : List Char) (env : Env) : Except ErrVal (List Char) :=
  if privateKeyFalsy env.privateKey then
    Except.error (ErrVal.errObj cfgMsg)
  else do
    let _addr ← env.walletInit
    let _balance ← env.getBalance
    let rawData ← env.hermes
    let _blobs := priceUpdateData rawData
    let _pythAddr ← env.pyth
    let _fee ← env.getUpdateFee
    let hash ← env.sendTx
    let _blockNum ← env.txWait
    pure hash

/-- The `try`-block of `updateOraclePrices` in the `p0` variant: same chain
as `updateBody` except that it performs no balance query and throws its own
configuration-error message. -/
def p0UpdateBody (env : Env) : Except ErrVal (List Char) :=
  if privateKeyFalsy env.privateKey then
    Except.error (ErrVal.errObj p0ConfigErrorMsg)
  else do
    let _addr ← env.walletInit
    let rawData ← env.hermes
    let _blobs := priceUpdateData rawData
    let _pythAddr ← env.pyth
    let _fee ← env.getUpdateFee
    let hash ← env.sendTx
    let _blockNum ← env.txWait
    pure hash

/-- `updateOraclePrices` of the `src` variant: the body wrapped in the
catch-all that turns any thrown value into a failure result carrying the
formatted error message. -/
def updateOraclePrices (env : Env) : JsResult :=
  match updateBody srcConfigErrorMsg env with
  | Except.ok h => { success := true, hash := some h }
  | Except.error e => { success := false, error := some (JsVal.str (formatError e)) }

/-- `updateOraclePrices` of the `dist` variant. -/
def distUpdateOraclePrices (env : Env) : JsResult :=
  match updateBody distConfigErrorMsg env with
  | Except.ok h => { success := true, hash := some h }
  | Except.error e => { success := false, error := some (JsVal.str (formatError e)) }

/-- `updateOraclePrices` of the `p0` variant: its catch returns the raw
thrown value in the `error` field, not the formatted message. -/
def p0UpdateOraclePrices (env : Env) : JsResult :=
  match p0UpdateBody env with
  | Except.ok h => { success := true, hash := some h }
  | Except.error e => { success := false, error := some (JsVal.err e) }

/-- The outcome of the single read-only contract call a price reader
performs. -/
structure ReadEnv where
  call : Except ErrVal Nat
deriving Repr

/-- `BigInt.prototype.toString` on a `uint256` value: its decimal digits. -/
def natToDecimal (n : Nat) : List Char :=
  Nat.toDigits 10 n

/-- `getUnderlyingPrice` of the `src` variant: one contract call; on success
the result carries `price.toString()` (the decimal string of the raw
integer), on failure the formatted error message. -/
def getUnderlyingPrice (env : ReadEnv) : JsResult :=
  match env.call with
  | Except.ok price => { success := true, price := some (JsVal.str (natToDecimal price)) }
  | Except.error e => { success := false, error := some (JsVal.str (formatError e)) }

/-- `getAssetPrice` of the `src` variant (the `assetPrices` accessor). -/
def getAssetPrice (env : ReadEnv) : JsResult :=
  match env.call with
  | Except.ok price => { success := true, price := some (JsVal.str (natToDecimal price)) }
  | Except.error e => { success := false, error := some (JsVal.str (formatError e)) }

/-- `getUnderlyingPrice` of the `dist` variant (textually identical to the
`src` one). -/
def distGetUnderlyingPrice (env : ReadEnv) : JsResult :=
  match env.call with
  | Except.ok price => { success := true, price := some (JsVal.str (natToDecimal price)) }
  | Except.error e => { success := false, error := some (JsVal.str (formatError e)) }

/-- `getAssetPrice` of the `dist` variant. -/
def distGetAssetPrice (env : ReadEnv) : JsResult :=
  match env.call with
  | Except.ok price => { success := true, price := some (JsVal.str (natToDecimal price)) }
  | Except.error e => { success := false, error := some (JsVal.str (formatError e)) }

/-- `getUnderlyingPrice` of the `p0` variant: returns the raw bigint in
`price` and the raw thrown value in `error`. -/
def p0GetUnderlyingPrice (env : ReadEnv) : JsResult :=
  match env.call with
  | Except.ok price => { success := true, price := some (JsVal.big price) }
  | Except.error e => { success := false, error := some (JsVal.err e) }

/-- `getAssetPrice` of the `p0` variant. -/
def p0GetAssetPrice (env : ReadEnv) : JsResult :=
  match env.call with
  | Except.ok price => { success := true, price := some (JsVal.big price) }
  | Except.error e => { success := false, error := some (JsVal.err e) }

/-
  Scheduler (`startContinuousUpdates` / `runUpdate` of the `src` variant).

  One `runUpdate` iteration awaits `updateOraclePrices()` (which always
  resolves, because that function catches every error it raises) and then
  schedules the next iteration after `Math.max(500, UPDATE_INTERVAL -
  executionTime)` milliseconds.  The `catch` branch of `runUpdate`, which
  schedules after a fixed 10000 ms, is reachable only by a throw raised
  inside `runUpdate` outside of `updateOraclePrices`.
-/

/-- One iteration of `runUpdate`: the resolved cycle result together with
the delay (in ms) passed to `setTimeout` for the next iteration, as a
function of the measured execution time. -/
def runUpdateStep (env : Env) (executionTime : Int) : JsResult × Int :=
  (updateOraclePrices env, max 500 (UPDATE_INTERVAL - executionTime))

/-- The fixed delay of `runUpdate`'s `catch` branch. -/
def runUpdateCatchDelay : Int := 10000

/-
  Lambda handlers.
-/

/-- The invocation event: optional `command` and `address` fields, the
`noReschedule` flag, and the `source` field (the `dist` variant computes
`isScheduledEvent` from it but never uses it). -/
structure Event where
  command : Option (List Char)
  address : Option (List Char)
  noReschedule : Bool
  source : Option (List Char)

/-- JavaScript truthiness of `event.address`: present and non-empty. -/
def addrTruthy : Option (List Char) → Bool
  | none => false
  | some s => !s.isEmpty

/-- The external world of one `src` handler invocation: the submission-cycle
trace plus the outcome of whichever read call the event may dispatch. -/
structure World where
  update : Env
  readUnderlying : Except ErrVal Nat
  readAsset : Except ErrVal Nat

/-- The command dispatch shared by the handler and the CLI surface of the
`src` variant. -/
def dispatch (ev : Event) (w : World) : JsResult :=
  if ev.command == some "price".toList && addrTruthy ev.address then
    getUnderlyingPrice { call := w.readUnderlying }
  else if ev.command == some "asset-price".toList && addrTruthy ev.address then
    getAssetPrice { call := w.readAsset }
  else
    updateOraclePrices w.update

/-- The handler's structured result.  `body` holds the result object that
`JSON.stringify` serializes into the returned body string. -/
structure HandlerRes where
  statusCode : Nat
  body : JsResult
deriving DecidableEq, Repr

/-- The `try`-block of the `src` handler: dispatch and wrap in a 200
response.  It contains no fallible step, because every dispatched operation
resolves to a result object. -/
def handlerBody (ev : Event) (w : World) : Except ErrVal HandlerRes := do
  let result := dispatch ev w
  pure { statusCode := 200, body := result }

/-- The `src` handler: the body wrapped in the catch that converts an
uncaught failure into a 500 response. -/
def handler (ev : Event) (w : World) : HandlerRes :=
  match handlerBody ev w with
  | Except.ok r => r
  | Except.error e =>
      { statusCode := 500
        body := { success := false, error := some (JsVal.str (formatError e)) } }

/-
  `dist` variant: self-rescheduling handler.
-/

/-- `scheduleNextInvocation` of the `dist` variant, as a function of the
outcome of the `lambda.invoke(...).promise()` call it awaits: its internal
catch absorbs a failed invoke (logging it), so the function always resolves
with no value. -/
def scheduleNextInvocation : Except ErrVal Unit → Except ErrVal Unit
  | Except.ok _ => Except.ok ()
  | Except.error _ => Except.ok ()

/-- The external world of one `dist` handler invocation: the `src` world
plus the truthiness of `process.env.AWS_EXECUTION_ENV` and the outcome of
the reschedule invoke call. -/
structure DistWorld where
  update : Env
  readUnderlying : Except ErrVal Nat
  readAsset : Except ErrVal Nat
  awsExecEnv : Bool
  schedOutcome : Except ErrVal Unit

/-- The command dispatch of the `dist` handler. -/
def distDispatch (ev : Event) (w : DistWorld) : JsResult :=
  if ev.command == some "price".toList && addrTruthy ev.address then
    distGetUnderlyingPrice { call := w.readUnderlying }
  else if ev.command == some "asset-price".toList && addrTruthy ev.address then
    distGetAssetPrice { call := w.readAsset }
  else
    distUpdateOraclePrices w.update

/-- The `dist` handler's structured result, together with whether this
invocation asked the host to invoke the handler again. -/
structure DistHandlerRes where
  statusCode : Nat
  body : JsResult
  rescheduled : Bool
deriving DecidableEq, Repr

/-- The `try`-block of the `dist` handler: dispatch, conditionally await
`scheduleNextInvocation`, and wrap in a 200 response. -/
def distHandlerBody (ev : Event) (w : DistWorld) : Except ErrVal DistHandlerRes := do
  let result := distDispatch ev w
  let doSched := w.awsExecEnv && !ev.noReschedule
  let _ ← (if doSched then scheduleNextInvocation w.schedOutcome else Except.ok ())
  pure { statusCode := 200, body := result, rescheduled := doSched }

/-- The `dist` handler: body wrapped in the catch that converts an uncaught
failure into a 500 response (the catch path repeats the conditional
reschedule before returning). -/
def distHandler (ev : Event) (w : DistWorld) : DistHandlerRes :=
  match distHandlerBody ev w with
  | Except.ok r => r
  | Except.error e =>
      let doSched := w.awsExecEnv && !ev.noReschedule
      let _ := (if doSched then some (scheduleNextInvocation w.schedOutcome) else none)
      { statusCode := 500
        body := { success := false, error := some (JsVal.str (formatError e)) }
        rescheduled := doSched }

/-
  Spec-side definition for the refinement comparison of the price readers.
-/

/-- Drops trailing `'0'` characters. -/
def dropTrailingZeroChars (l : List Char) : List Char :=
  (l.reverse.dropWhile (fun c => c == '0')).reverse

/-- Follows the spec's words, for comparison with the code: "a decimal
string scaled by a fixed 18-decimal convention", i.e. the raw integer
divided by `10 ^ 18` rendered as the 18-decimal display string (integer
part, a decimal point, and the fractional digits without trailing zeros,
keeping at least one digit — the rendering `ethers.formatUnits (price, 18)`
logs). -/
def spec18DecimalString (n : Nat) : List Char :=
  let ds := natToDecimal (n % 10 ^ 18)
  let padded := List.replicate (18 - ds.length) '0' ++ ds
  let trimmed := dropTrailingZeroChars padded
  natToDecimal (n / 10 ^ 18) ++ '.' :: (if trimmed.isEmpty then "0".toList else trimmed)

/-- A result object is a tagged outcome: either success with no error
field, or failure carrying an error-description string. -/
def isTaggedOutcome (r : JsResult) : Prop :=
  (r.success = true ∧ r.error = none) ∨
  (r.success = false ∧ ∃ s : List Char, r.error = some (JsVal.str s))

/-
  Concrete environments used to instantiate the theorems.
-/

/-- A cycle trace in which the signing credential is absent and every
external call would succeed. -/
def envNoKey : Env :=
  { privateKey := none
    walletInit := Except.ok "0xW".toList
    getBalance := Except.ok 0
    hermes := Except.ok []
    pyth := Except.ok "0xP".toList
    getUpdateFee := Except.ok 0
    sendTx := Except.ok "0xT".toList
    txWait := Except.ok 0 }

/-- A cycle trace in which every external call succeeds. -/
def envAllOk : Env :=
  { privateKey := some "k".toList
    walletInit := Except.ok "0xW".toList
    getBalance := Except.ok 100
    hermes := Except.ok ["ab".toList]
    pyth := Except.ok "0xP".toList
    getUpdateFee := Except.ok 1
    sendTx := Except.ok "0xTxHash".toList
    txWait := Except.ok 42 }

/-- The all-success trace with a failing balance query. -/
def envBalanceFail : Env :=
  { envAllOk with getBalance := Except.error (ErrVal.errObj "rpc failure".toList) }

/-- An event carrying no command. -/
def defaultEvent : Event :=
  { command := none, address := none, noReschedule := false, source := none }

/-- A `src` handler world whose submission cycle fails for lack of the
signing credential. -/
def worldNoKey : World :=
  { update := envNoKey, readUnderlying := Except.ok 0, readAsset := Except.ok 0 }

/-
  Helper lemmas (shared across the claim theorems).
-/

/-- The internal catch of `scheduleNextInvocation` absorbs any failure of
the invoke call, so the function always resolves. -/
theorem scheduleNextInvocation_ok (o : Except ErrVal Unit) :
    scheduleNextInvocation o = Except.ok () := by
  cases o <;> rfl

/-- The `dist` handler body never throws: it resolves to the 200 response
around the dispatched result, recording whether it rescheduled. -/
theorem distHandlerBody_ok (ev : Event) (w : DistWorld) :
    distHandlerBody ev w = Except.ok
      { statusCode := 200
        body := distDispatch ev w
        rescheduled := w.awsExecEnv && !ev.noReschedule } := by
  unfold distHandlerBody
  cases hb : (w.awsExecEnv && !ev.noReschedule) <;>
    simp [hb, scheduleNextInvocation_ok, bind, Except.bind, pure, Except.pure]

/-- Evaluated form of the `dist` handler. -/
theorem distHandler_eq (ev : Event) (w : DistWorld) :
    distHandler ev w =
      { statusCode := 200
        body := distDispatch ev w
        rescheduled := w.awsExecEnv && !ev.noReschedule } := by
  unfold distHandler
  rw [distHandlerBody_ok]

/-
  Claim theorems.
-/

/-- C1, counterexample: a cycle that fails (here: missing signing
credential) resolves as a failure result inside `updateOraclePrices`, and
the scheduler then waits `max 500 (45000 - 0) = 45000` ms — not the fixed
10000 ms backoff of the `catch` branch. -/
theorem c1_counterexample :
    (runUpdateStep envNoKey 0).1.success = false ∧
    (runUpdateStep envNoKey 0).2 = 45000 ∧
    (45000 : Int) ≠ runUpdateCatchDelay := by
  refine ⟨by decide, by decide, by decide⟩

/-- C1 (amended): a failing submission cycle is absorbed inside
`updateOraclePrices`, so in continuous mode the scheduler waits
`max 500 (45000 - E)` after it — the same delay as after a successful
cycle; the fixed 10000 ms delay belongs to `runUpdate`'s `catch` branch,
which only a throw raised outside `updateOraclePrices` can reach. -/
theorem c1_amended_failed_cycle_delay :
    (∀ (env : Env) (executionTime : Int),
      (updateOraclePrices env).success = false →
      (runUpdateStep env executionTime).2 = max 500 (45000 - executionTime)) ∧
    runUpdateCatchDelay = 10000 := by
  refine ⟨fun env executionTime _ => ?_, rfl⟩
  simp [runUpdateStep, UPDATE_INTERVAL]

/-- Witness for the amended C1 at a concrete failing cycle. -/
theorem c1_amended_failed_cycle_delay_witness :
    (runUpdateStep envNoKey 12345).2 = max 500 (45000 - 12345) :=
  c1_amended_failed_cycle_delay.1 envNoKey 12345 (by decide)

/-- C2: for every cycle whose awaited execution took `E` ms, the scheduler
schedules the next cycle after exactly `max 500 (45000 - E)` ms, and in
particular after exactly 500 ms whenever `E ≥ 45000`. -/
theorem c2_scheduler_delay (env : Env) (executionTime : Int) :
    (runUpdateStep env executionTime).2 = max 500 (45000 - executionTime) ∧
    (45000 ≤ executionTime → (runUpdateStep env executionTime).2 = 500) := by
  constructor
  · simp [runUpdateStep, UPDATE_INTERVAL]
  · intro hE
    have hle : (45 : Int) * 1000 - executionTime ≤ 500 := by omega
    simpa [runUpdateStep, UPDATE_INTERVAL] using max_eq_left hle

/-- Witness for C2 at a concrete overlong cycle. -/
theorem c2_scheduler_delay_witness :
    (runUpdateStep envNoKey 50000).2 = max 500 (45000 - 50000) ∧
    (runUpdateStep envNoKey 50000).2 = 500 :=
  ⟨(c2_scheduler_delay envNoKey 50000).1,
   (c2_scheduler_delay envNoKey 50000).2 (by decide)⟩

/-- C3: the fetcher's normalization returns exactly one blob per element of
the attestation response (same length, same order: element `i` of the
output is the normalization of element `i` of the input), every output
blob starts with `0x`, elements already carrying the marker pass through
unchanged, and the others get exactly one `0x` prepended. -/
theorem c3_normalization (rawData : List (List Char)) :
    (priceUpdateData rawData).length = rawData.length ∧
    (∀ i : Nat, (priceUpdateData rawData)[i]? = (rawData[i]?).map normalizeBlob) ∧
    (∀ s : List Char,
      startsWith0x (normalizeBlob s) = true ∧
      (startsWith0x s = true → normalizeBlob s = s) ∧
      (startsWith0x s = false → normalizeBlob s = "0x".toList ++ s)) := by
  refine ⟨by simp [priceUpdateData], fun i => by simp [priceUpdateData], fun s => ?_⟩
  refine ⟨?_, fun h => by simp [normalizeBlob, h], fun h => by simp [normalizeBlob, h]⟩
  cases hx : startsWith0x s with
  | true => simp [normalizeBlob, hx]
  | false =>
      have h2 : normalizeBlob s = "0x".toList ++ s := by simp [normalizeBlob, hx]
      rw [h2]
      show List.isPrefixOf ['0', 'x'] ('0' :: 'x' :: s) = true
      simp [List.isPrefixOf]

/-- Witness for C3 at concrete inputs with and without the marker. -/
theorem c3_normalization_witness :
    normalizeBlob "0xab".toList = "0xab".toList ∧
    normalizeBlob "ab".toList = "0x".toList ++ "ab".toList :=
  ⟨((c3_normalization [])).2.2 ("0xab".toList) |>.2.1 (by decide),
   ((c3_normalization [])).2.2 ("ab".toList) |>.2.2 (by decide)⟩

/-- C4: every public operation of the `src` variant resolves to a tagged
result — success with no error field, or failure carrying an
error-description string — for every trace of raised errors; since each is
a total function into `JsResult`, none propagates a raw fault to its
caller. -/
theorem c4_tagged_results (env : Env) (r₁ r₂ : ReadEnv) :
    isTaggedOutcome (updateOraclePrices env) ∧
    isTaggedOutcome (getUnderlyingPrice r₁) ∧
    isTaggedOutcome (getAssetPrice r₂) := by
  refine ⟨?_, ?_, ?_⟩
  · unfold updateOraclePrices
    cases updateBody srcConfigErrorMsg env with
    | ok v => exact Or.inl ⟨rfl, rfl⟩
    | error e => exact Or.inr ⟨rfl, ⟨formatError e, rfl⟩⟩
  · unfold getUnderlyingPrice
    cases r₁.call with
    | ok v => exact Or.inl ⟨rfl, rfl⟩
    | error e => exact Or.inr ⟨rfl, ⟨formatError e, rfl⟩⟩
  · unfold getAssetPrice
    cases r₂.call with
    | ok v => exact Or.inl ⟨rfl, rfl⟩
    | error e => exact Or.inr ⟨rfl, ⟨formatError e, rfl⟩⟩

/-- C5, counterexample: with no command and a failing cycle (missing
signing credential), the dispatched operation fails, yet the handler
returns status code 200 — not the 500 the claim requires for a failed
operation. -/
theorem c5_counterexample :
    (handler defaultEvent worldNoKey).statusCode = 200 ∧
    (handler defaultEvent worldNoKey).body.success = false := by
  refine ⟨by decide, by decide⟩

/-- C5 (amended): both handlers always return status code 200 with the
dispatched operation's result object as the (to-be-serialized) body,
whether that result is a success or a failure; the 500 branch is reachable
only by a fault thrown outside the dispatched operations, and every
dispatched operation resolves. -/
theorem c5_amended_handler_always_200 (ev : Event) (w : World) (dw : DistWorld) :
    (handler ev w).statusCode = 200 ∧
    (handler ev w).body = dispatch ev w ∧
    (distHandler ev dw).statusCode = 200 ∧
    (distHandler ev dw).body = distDispatch ev dw := by
  refine ⟨rfl, rfl, ?_, ?_⟩ <;> rw [distHandler_eq]

/-- C6, counterexample: on a successful read of the raw integer 5, the
reader returns the decimal string of the raw integer, `"5"` — not the
18-decimal-scaled display string `"0.000000000000000005"` the claim
requires. -/
theorem c6_counterexample :
    getUnderlyingPrice { call := Except.ok 5 }
      = { success := true, price := some (JsVal.str "5".toList) } ∧
    "5".toList ≠ spec18DecimalString 5 := by
  refine ⟨by decide, by decide⟩

/-- C6 (amended): on every successful call both readers return the price as
the plain decimal string of the raw integer (which preserves the raw
integer exactly); the 18-decimal-scaled rendering is only logged, never
returned. -/
theorem c6_amended_raw_decimal_string (r : ReadEnv) (n : Nat)
    (hok : r.call = Except.ok n) :
    getUnderlyingPrice r
      = { success := true, price := some (JsVal.str (natToDecimal n)) } ∧
    getAssetPrice r
      = { success := true, price := some (JsVal.str (natToDecimal n)) } := by
  unfold getUnderlyingPrice getAssetPrice
  rw [hok]
  exact ⟨rfl, rfl⟩

/-- Witness for the amended C6 at raw price 7. -/
theorem c6_amended_raw_decimal_string_witness :
    getUnderlyingPrice { call := Except.ok 7 }
      = { success := true, price := some (JsVal.str (natToDecimal 7)) } ∧
    getAssetPrice { call := Except.ok 7 }
      = { success := true, price := some (JsVal.str (natToDecimal 7)) } :=
  c6_amended_raw_decimal_string { call := Except.ok 7 } 7 rfl

/-- C7, counterexample: a submission whose confirmation was observed (the
awaited receipt reported block 42) returns a success result whose
`blockNumber` key is absent — only the transaction hash is returned. -/
theorem c7_counterexample :
    (updateOraclePrices envAllOk).success = true ∧
    (updateOraclePrices envAllOk).hash = some "0xTxHash".toList ∧
    (updateOraclePrices envAllOk).blockNumber = none := by
  refine ⟨by decide, by decide, by decide⟩

/-- C7 (amended): for every submission that reaches one confirmation, the
success result contains the transaction identifier but not the confirmation
block number — that number is awaited and logged, then discarded. -/
theorem c7_amended_success_hash_only (env : Env) (txHash : List Char)
    (hok : updateBody srcConfigErrorMsg env = Except.ok txHash) :
    updateOraclePrices env = { success := true, hash := some txHash } := by
  unfold updateOraclePrices
  rw [hok]

/-- Witness for the amended C7 on the all-success trace. -/
theorem c7_amended_success_hash_only_witness :
    updateOraclePrices envAllOk = { success := true, hash := some "0xTxHash".toList } :=
  c7_amended_success_hash_only envAllOk ("0xTxHash".toList) rfl

/-- C8, counterexample: the three variants do not produce the same
results.  With the signing credential absent, `src` and `dist` return
different formatted error messages and `p0` returns the raw error value;
with a failing balance query, `src` fails while `p0` (which performs no
balance query) succeeds — the success flags themselves differ; and on a
successful read, `p0` returns the raw bigint where `src` returns its
decimal string. -/
theorem c8_counterexample :
    updateOraclePrices envNoKey ≠ distUpdateOraclePrices envNoKey ∧
    updateOraclePrices envNoKey ≠ p0UpdateOraclePrices envNoKey ∧
    (updateOraclePrices envBalanceFail).success = false ∧
    (p0UpdateOraclePrices envBalanceFail).success = true ∧
    getUnderlyingPrice { call := Except.ok 5 }
      ≠ p0GetUnderlyingPrice { call := Except.ok 5 } := by
  refine ⟨by decide, by decide, by decide, by decide, by decide⟩

/-- C8 (amended): `src` and `dist` agree on the success flag and the hash
of every cycle (they differ only in their configuration-error message);
whenever `src` succeeds, `p0` returns the identical success result; the
`src` and `dist` readers are identical; and all three variants agree on
every reader's success flag.  Beyond this, the variants differ: `p0` skips
the balance query (so it can succeed where the others fail), returns raw
error values instead of formatted messages, and returns raw integer prices
instead of decimal strings. -/
theorem c8_amended_variant_agreement (env : Env) (r : ReadEnv) :
    (updateOraclePrices env).success = (distUpdateOraclePrices env).success ∧
    (updateOraclePrices env).hash = (distUpdateOraclePrices env).hash ∧
    ((updateOraclePrices env).success = true →
      p0UpdateOraclePrices env = updateOraclePrices env) ∧
    getUnderlyingPrice r = distGetUnderlyingPrice r ∧
    getAssetPrice r = distGetAssetPrice r ∧
    (getUnderlyingPrice r).success = (p0GetUnderlyingPrice r).success ∧
    (getAssetPrice r).success = (p0GetAssetPrice r).success := by
  obtain ⟨pk, wi, gb, hm, py, fee, tx, wt⟩ := env
  obtain ⟨call⟩ := r
  cases hpk : privateKeyFalsy pk <;>
  cases wi <;> cases gb <;> cases hm <;> cases py <;> cases fee <;> cases tx <;>
  cases wt <;> cases call <;>
  simp [updateOraclePrices, distUpdateOraclePrices, p0UpdateOraclePrices,
        updateBody, p0UpdateBody, getUnderlyingPrice, distGetUnderlyingPrice,
        p0GetUnderlyingPrice, getAssetPrice, distGetAssetPrice, p0GetAssetPrice,
        hpk, bind, Except.bind, pure, Except.pure]

/-- Witness for the amended C8 on the all-success trace. -/
theorem c8_amended_variant_agreement_witness :
    p0UpdateOraclePrices envAllOk = updateOraclePrices envAllOk :=
  (c8_amended_variant_agreement envAllOk { call := Except.ok 0 }).2.2.1 (by decide)

/-- C9: the `dist` handler asks the host to invoke it again exactly when
`AWS_EXECUTION_ENV` is truthy (a managed-function host) and the event does
not set `noReschedule` — independently of the dispatched operation's
outcome. -/
theorem c9_reschedule_condition (ev : Event) (w : DistWorld) :
    (distHandler ev w).rescheduled = (w.awsExecEnv && !ev.noReschedule) := by
  rw [distHandler_eq]

/-- C10: a failed reschedule-invoke is absorbed inside
`scheduleNextInvocation` (it always resolves), and the `dist` handler's
status code and body are unaffected by the reschedule call's outcome. -/
theorem c10_reschedule_failure_absorbed :
    (∀ o : Except ErrVal Unit, scheduleNextInvocation o = Except.ok ()) ∧
    (∀ (ev : Event) (w : DistWorld) (o₁ o₂ : Except ErrVal Unit),
      (distHandler ev { w with schedOutcome := o₁ }).statusCode
        = (distHandler ev { w with schedOutcome := o₂ }).statusCode ∧
      (distHandler ev { w with schedOutcome := o₁ }).body
        = (distHandler ev { w with schedOutcome := o₂ }).body) := by
  refine ⟨scheduleNextInvocation_ok, fun ev w o₁ o₂ => ?_⟩
  rw [distHandler_eq, distHandler_eq]
  exact ⟨rfl, rfl⟩

end OracleScript
